import Mathlib

/-!
Verification of the ShineMonitor PWA API client (`src/shinemonitor-pwa/js/api.js`)
against its natural-language specification.

The JavaScript client is embedded shallowly:

* `generateSignature` mirrors `API.generateSignature` (line 35): the lowercase
  hexadecimal SHA-1 digest of `salt + token + secret`.  The external
  `CryptoJS.SHA1` dependency is modelled by a byte-level SHA-1 implementation
  (`sha1`) over `Nat` with explicit reduction modulo `2 ^ 32`, validated below
  on a standard test vector.
* JavaScript objects used as parameter bags are association lists with
  spread/override semantics (`objSet`, `objMerge`, `objGet`).
* The mutable client state (`API.token`, `API.secret`, `API.authTime`, the
  persisted `api_credentials` record) is `ApiState`; `null`/`undefined`
  values are `Option.none`, and the coercion JavaScript applies when a `null`
  value is concatenated into a string or serialized into a query parameter is
  `jsStr` (which produces the literal string `"null"`).
* Network effects are passed in explicitly: `request` takes the transport as a
  function from the built parameter object to a decoded envelope (or a thrown
  error message), and returns alongside its result the number of transport
  invocations the code performs.
-/

namespace Smartess

/-! ### 32-bit arithmetic helpers for SHA-1 -/

/-- The modulus of 32-bit machine arithmetic. -/
def w32 : Nat := 4294967296

/-- 32-bit addition. -/
def add32 (a b : Nat) : Nat := (a + b) % w32

/-- 32-bit bitwise complement. -/
def not32 (a : Nat) : Nat := Nat.xor a (w32 - 1)

/-- 32-bit left rotation of a word already reduced modulo `2 ^ 32`. -/
def rotl32 (x n : Nat) : Nat := (Nat.lor (x <<< n) (x >>> (32 - n))) % w32

/-! ### SHA-1 (model of the `CryptoJS.SHA1` dependency) -/

/-- The SHA-1 round function. -/
def sha1F (t b c d : Nat) : Nat :=
  if t < 20 then Nat.lor (Nat.land b c) (Nat.land (not32 b) d)
  else if t < 40 then Nat.xor (Nat.xor b c) d
  else if t < 60 then Nat.lor (Nat.lor (Nat.land b c) (Nat.land b d)) (Nat.land c d)
  else Nat.xor (Nat.xor b c) d

/-- The SHA-1 round constants. -/
def sha1K (t : Nat) : Nat :=
  if t < 20 then 0x5A827999
  else if t < 40 then 0x6ED9EBA1
  else if t < 60 then 0x8F1BBCDC
  else 0xCA62C1D6

/-- The five-word SHA-1 chaining state. -/
structure Sha1H where
  h0 : Nat
  h1 : Nat
  h2 : Nat
  h3 : Nat
  h4 : Nat
deriving DecidableEq

/-- The SHA-1 initialization vector. -/
def sha1Init : Sha1H := ⟨0x67452301, 0xEFCDAB89, 0x98BADCFE, 0x10325476, 0xC3D2E1F0⟩

/-- The sixteen big-endian 32-bit words of one 64-byte block. -/
def blockWords (blk : List Nat) : Array Nat :=
  (List.range 16).foldl
    (fun w j =>
      w.push (blk.getD (4 * j) 0 * 16777216 + blk.getD (4 * j + 1) 0 * 65536 +
        blk.getD (4 * j + 2) 0 * 256 + blk.getD (4 * j + 3) 0))
    #[]

/-- The SHA-1 message schedule: expands 16 words to 80. -/
def sha1Schedule (w : Array Nat) : Array Nat :=
  (List.range 64).foldl
    (fun w i =>
      w.push (rotl32
        (Nat.xor (Nat.xor (w.getD (i + 13) 0) (w.getD (i + 8) 0))
          (Nat.xor (w.getD (i + 2) 0) (w.getD i 0))) 1))
    w

/-- Compression of one 64-byte block into the chaining state. -/
def sha1Block (h : Sha1H) (blk : List Nat) : Sha1H :=
  let w := sha1Schedule (blockWords blk)
  let r := (List.range 80).foldl
    (fun (s : Nat × Nat × Nat × Nat × Nat) t =>
      let temp := (rotl32 s.1 5 + sha1F t s.2.1 s.2.2.1 s.2.2.2.1 + s.2.2.2.2 +
        sha1K t + w.getD t 0) % w32
      (temp, s.1, rotl32 s.2.1 30, s.2.2.1, s.2.2.2.1))
    (h.h0, h.h1, h.h2, h.h3, h.h4)
  ⟨add32 h.h0 r.1, add32 h.h1 r.2.1, add32 h.h2 r.2.2.1,
   add32 h.h3 r.2.2.2.1, add32 h.h4 r.2.2.2.2⟩

/-- Big-endian bytes of the 64-bit message bit length. -/
def lenBytes (n : Nat) : List Nat :=
  (List.range 8).map (fun i => n / 2 ^ (8 * (7 - i)) % 256)

/-- SHA-1 padding: a `0x80` byte, zeros, then the 64-bit bit length. -/
def sha1Pad (msg : List Nat) : List Nat :=
  msg ++ [128] ++ List.replicate ((64 - (msg.length + 9) % 64) % 64) 0 ++
    lenBytes (8 * msg.length)

/-- Split a padded message into its 64-byte blocks. -/
def sha1Blocks (padded : List Nat) : List (List Nat) :=
  (List.range (padded.length / 64)).map (fun i => ((padded.drop (64 * i)).take 64))

/-- The SHA-1 digest of a byte sequence, as the five-word chaining state. -/
def sha1 (msg : List Nat) : Sha1H :=
  (sha1Blocks (sha1Pad msg)).foldl sha1Block sha1Init

/-! ### Hexadecimal rendering and UTF-8 -/

/-- The character JavaScript's `Number.prototype.toString(16)` produces for one
nibble: `'0'`–`'9'` then `'a'`–`'f'`. -/
def nibbleChar (n : Nat) : Char :=
  if n < 10 then Char.ofNat (48 + n) else Char.ofNat (87 + n)

/-- The eight hex characters of one 32-bit word, most significant first. -/
def hexOfWord (w : Nat) : List Char :=
  [nibbleChar (w / 268435456 % 16), nibbleChar (w / 16777216 % 16),
   nibbleChar (w / 1048576 % 16), nibbleChar (w / 65536 % 16),
   nibbleChar (w / 4096 % 16), nibbleChar (w / 256 % 16),
   nibbleChar (w / 16 % 16), nibbleChar (w % 16)]

/-- The forty hex characters of a SHA-1 digest. -/
def sha1HexChars (msg : List Nat) : List Char :=
  hexOfWord (sha1 msg).h0 ++ hexOfWord (sha1 msg).h1 ++ hexOfWord (sha1 msg).h2 ++
    hexOfWord (sha1 msg).h3 ++ hexOfWord (sha1 msg).h4

/-- UTF-8 encoding of one character. -/
def utf8Char (c : Char) : List Nat :=
  let n := c.toNat
  if n < 128 then [n]
  else if n < 2048 then [192 + n / 64, 128 + n % 64]
  else if n < 65536 then [224 + n / 4096, 128 + n / 64 % 64, 128 + n % 64]
  else [240 + n / 262144, 128 + n / 4096 % 64, 128 + n / 64 % 64, 128 + n % 64]

/-- UTF-8 encoding of a string (CryptoJS parses string input as UTF-8). -/
def utf8Bytes (s : String) : List Nat :=
  (s.data.map utf8Char).flatten

/-- Lowercase hexadecimal SHA-1 digest of a string, as produced by
`CryptoJS.SHA1(data).toString()`. -/
def sha1Hex (s : String) : String :=
  ⟨sha1HexChars (utf8Bytes s)⟩

/-- Model of JavaScript's `String.prototype.toLowerCase` (ASCII range). -/
def jsToLowerCase (s : String) : String :=
  ⟨s.data.map Char.toLower⟩

/-- Embedding of `API.generateSignature` (api.js lines 35–38): the lowercase
hex SHA-1 digest of the concatenation `salt + token + secret`. -/
def generateSignature (salt token secret : String) : String :=
  jsToLowerCase (sha1Hex (salt ++ token ++ secret))

/-- The sixteen lowercase hexadecimal characters. -/
def hexAlphabet : List Char :=
  "0123456789abcdef".toList

/-! ### JavaScript value helpers -/

/-- Coercion JavaScript applies when a `null` value is concatenated into a
string or serialized by `URLSearchParams`: `null` renders as `"null"`. -/
def jsStr : Option String → String
  | none => "null"
  | some s => s

/-- JavaScript truthiness of a string-or-null value: `null`, `undefined` and
`""` are falsy. -/
def jsTruthy : Option String → Bool
  | none => false
  | some s => s ≠ ""

/-- JavaScript `a || b` on strings: yields `b` exactly when `a` is empty. -/
def jsOr (a b : String) : String :=
  if a = "" then b else a

/-! ### JavaScript objects as parameter bags -/

/-- A JavaScript object used as a string-valued parameter bag, in insertion
order. -/
abbrev Obj := List (String × String)

/-- Assigning one key: overrides an existing binding in place, else appends. -/
def objSet (o : Obj) (k v : String) : Obj :=
  if o.any (fun p => p.1 == k) then
    o.map (fun p => if p.1 == k then (k, v) else p)
  else o ++ [(k, v)]

/-- Spread semantics of `{ ...a, ...b }`: entries of `b` override `a`. -/
def objMerge (a b : Obj) : Obj :=
  b.foldl (fun acc p => objSet acc p.1 p.2) a

/-- Reading a key from an object. -/
def objGet (o : Obj) (k : String) : Option String :=
  (o.find? (fun p => p.1 == k)).map (fun p => p.2)

/-! ### Client state (`API.token` / `API.secret` / `API.authTime` and the
persisted `api_credentials` record) -/

/-- The record `API.login` persists under the `api_credentials` key. -/
structure StoredCreds where
  token : Option String
  secret : Option String
  authTime : Option Nat
  userid : Option String
  email : Option String
deriving DecidableEq

/-- The empty object `{}` that `Utils.getLocalStorage` returns by default. -/
def emptyCreds : StoredCreds := ⟨none, none, none, none, none⟩

/-- The mutable state of the `API` object plus its persisted credentials. -/
structure ApiState where
  token : Option String
  secret : Option String
  authTime : Option Nat
  storage : Option StoredCreds
deriving DecidableEq

/-- The state of a fresh client before any login: all fields `null`, nothing
persisted. -/
def initialState : ApiState := ⟨none, none, none, none⟩

/-- Embedding of `API.init` (api.js lines 19–30): loads the stored credentials
into memory when both a token and a secret are present (truthy). -/
def init (s : ApiState) : ApiState :=
  let stored := s.storage.getD emptyCreds
  if jsTruthy stored.token && jsTruthy stored.secret then
    { s with token := stored.token, secret := stored.secret, authTime := stored.authTime }
  else s

/-- Embedding of `API.isAuthenticated` (api.js line 242). -/
def isAuthenticated (s : ApiState) : Bool :=
  jsTruthy s.token && jsTruthy s.secret

/-! ### Request building -/

/-- Embedding of the `baseParams` object of `API.buildParams` (api.js lines
47–57): the salt is `Date.now().toString()` for the wall-clock millisecond
time `now`, and the signature is computed over the (possibly `null`-coerced)
session token and secret. -/
def baseParams (s : ApiState) (now : Nat) : Obj :=
  [("sign", generateSignature (Nat.repr now) (jsStr s.token) (jsStr s.secret)),
   ("salt", Nat.repr now),
   ("token", jsStr s.token),
   ("i18n", "en_US"),
   ("lang", "en_US"),
   ("source", "android"),
   ("_app_client_", "android"),
   ("_app_id_", "com.eybond.smartclient.ess"),
   ("_app_version_", "3.43.0.1")]

/-- Embedding of `API.buildParams` (api.js lines 43–60): the return value of
`{ ...baseParams, ...params }`, caller params spread last. -/
def buildParams (s : ApiState) (now : Nat) (params : Obj) : Obj :=
  objMerge (baseParams s now) params

/-- The full parameter object `API.request` builds (api.js line 67):
`buildParams({ action, ...params })`. -/
def requestParams (s : ApiState) (now : Nat) (action : String) (params : Obj) : Obj :=
  buildParams s now (objMerge [("action", action)] params)

/-! ### Response envelope and request execution -/

/-- The vendor envelope `{ err, desc, dat }`, with the payload type left
abstract. -/
structure Envelope (α : Type) where
  err : Int
  desc : String
  dat : Option α
deriving DecidableEq

/-- The result object `API.request` resolves with. -/
inductive ReqResult (α : Type) where
  | ok (data : Option α) (message : String)
  | fail (error : String) (data : Option α)
deriving DecidableEq

/-- Whether a result has `success: true`. -/
def ReqResult.isSuccess {α : Type} : ReqResult α → Bool
  | .ok _ _ => true
  | .fail _ _ => false

/-- The `error` field of a result, when present. -/
def ReqResult.errorMsg {α : Type} : ReqResult α → Option String
  | .ok _ _ => none
  | .fail e _ => some e

/-- Embedding of the envelope branch of `API.request` (api.js lines 80–84):
`err === 0` resolves to success carrying `dat` and `desc`; otherwise failure
carrying `desc || 'Unknown error'` and `dat`. -/
def decodeEnvelope {α : Type} (e : Envelope α) : ReqResult α :=
  if e.err = 0 then .ok e.dat e.desc
  else .fail (jsOr e.desc "Unknown error") e.dat

/-- Embedding of `API.request` (api.js lines 65–92).  The transport is the
single `Utils.fetchWithTimeout` call (plus `response.json()`), abstracted as a
function from the built parameter object to either a decoded envelope or a
thrown error message; the second component of the result counts how many
transport invocations the code performs (the source issues exactly one fetch
and has no retry loop). -/
def request {α : Type} (s : ApiState) (now : Nat) (action : String) (params : Obj)
    (transport : Obj → Except String (Envelope α)) : ReqResult α × Nat :=
  match transport (requestParams s now action params) with
  | .ok env => (decodeEnvelope env, 1)
  | .error msg => (.fail (jsOr msg "Network error") none, 1)

/-! ### Endpoint wrappers -/

/-- Embedding of `API.getAccountInfo` (api.js line 154). -/
def getAccountInfo {α : Type} (s : ApiState) (now : Nat)
    (transport : Obj → Except String (Envelope α)) : ReqResult α × Nat :=
  request s now "queryAccountInfo" [] transport

/-- Embedding of `API.getDeviceLastData` (api.js lines 168–175): forwards all
four identifiers unchecked. -/
def getDeviceLastData {α : Type} (s : ApiState) (now : Nat)
    (pn devcode devaddr sn : String)
    (transport : Obj → Except String (Envelope α)) : ReqResult α × Nat :=
  request s now "querySPDeviceLastData"
    [("pn", pn), ("devcode", devcode), ("devaddr", devaddr), ("sn", sn)] transport

/-- Embedding of `API.controlDevice` (api.js lines 227–236). -/
def controlDevice {α : Type} (s : ApiState) (now : Nat)
    (pn devcode devaddr sn id val : String)
    (transport : Obj → Except String (Envelope α)) : ReqResult α × Nat :=
  request s now "ctrlDevice"
    [("pn", pn), ("devcode", devcode), ("devaddr", devaddr), ("sn", sn),
     ("id", id), ("val", val)] transport

/-! ### Login and logout -/

/-- The payload of a successful `authSource` response. -/
structure LoginDat where
  token : Option String
  secret : Option String
  userid : Option String
deriving DecidableEq

/-- The result object `API.login` resolves with. -/
inductive LoginResult where
  | ok (dat : LoginDat)
  | fail (error : String)
deriving DecidableEq

/-- The form body `API.login` posts (api.js lines 105–111). -/
def loginBody (email pwd : String) : Obj :=
  [("action", "authSource"), ("usr", email), ("pwd", pwd),
   ("company-key", "bnrl_frRFjEz8Mkn"), ("source", "android")]

/-- Embedding of `API.login` (api.js lines 97–139) as a state transition.  The
network outcome is passed in as `resp` (`Except.error m` models a rejected
fetch or JSON parse whose message is `m`).  On `err === 0` with a truthy `dat`
the in-memory token/secret/authTime are set and the credentials (including
`userid` and `email`) persisted; every other outcome leaves the state
untouched. -/
def login (s : ApiState) (email _pwd : String) (now : Nat)
    (resp : Except String (Envelope LoginDat)) : ApiState × LoginResult :=
  match resp with
  | .error msg => (s, .fail (jsOr msg "Login failed"))
  | .ok data =>
    match data.dat with
    | some d =>
      if data.err = 0 then
        ({ token := d.token, secret := d.secret, authTime := some now,
           storage := some ⟨d.token, d.secret, some now, d.userid, some email⟩ },
         .ok d)
      else (s, .fail (jsOr data.desc "Login failed"))
    | none => (s, .fail (jsOr data.desc "Login failed"))

/-- Embedding of `API.logout` (api.js lines 144–149): resets the in-memory
fields to `null` and removes the persisted credentials. -/
def logout (_s : ApiState) : ApiState :=
  ⟨none, none, none, none⟩

/-- The decimal digit characters of a number, most significant first: a
structurally recursive characterization of `Nat.repr` (the embedding of
JavaScript's `Date.now().toString()`), used to prove salts at distinct
millisecond timestamps distinct. -/
def decChars (n : Nat) : List Char :=
  if _h : n < 10 then [Nat.digitChar n]
  else decChars (n / 10) ++ [Nat.digitChar (n % 10)]
decreasing_by exact Nat.div_lt_self (by omega) (by omega)

/-- States reachable from a fresh process (any previously persisted storage)
through the public operations `init`, `login` and `logout`, with every
successful login envelope carrying a payload in which `token` and `secret`
are either both present or both missing. -/
inductive Reached : ApiState → Prop where
  | start (st : Option StoredCreds) : Reached ⟨none, none, none, st⟩
  | stepInit (s : ApiState) (h : Reached s) : Reached (init s)
  | stepLogin (s : ApiState) (email pwd : String) (now : Nat)
      (env : Envelope LoginDat) (h : Reached s)
      (hw : ∀ d, env.dat = some d → d.token.isSome = d.secret.isSome) :
      Reached (login s email pwd now (.ok env)).1
  | stepLoginErr (s : ApiState) (email pwd msg : String) (now : Nat)
      (h : Reached s) : Reached (login s email pwd now (.error msg)).1
  | stepLogout (s : ApiState) (h : Reached s) : Reached (logout s)

/-! ## Theorems -/

/-! ### SHA-1 model validation and hex-digest facts -/

set_option maxRecDepth 40000 in
/-- Validation of the SHA-1 model on the standard test vector for `"abc"`. -/
theorem sha1Hex_abc : sha1Hex "abc" = "a9993e364706816aba3e25717850c26c9cd0d89d" := by
  decide

set_option maxRecDepth 40000 in
/-- Validation of the SHA-1 model on the empty message. -/
theorem sha1Hex_empty : sha1Hex "" = "da39a3ee5e6b4b0d3255bfef95601890afd80709" := by
  decide

theorem nibbleChar_mem (n : Nat) (h : n < 16) : nibbleChar n ∈ hexAlphabet := by
  interval_cases n <;> decide

theorem hexOfWord_all (w : Nat) : ∀ c ∈ hexOfWord w, c ∈ hexAlphabet := by
  have h16 : ∀ x : Nat, x % 16 < 16 := fun x => Nat.mod_lt _ (by norm_num)
  intro c hc
  simp only [hexOfWord, List.mem_cons, List.not_mem_nil, or_false] at hc
  rcases hc with h | h | h | h | h | h | h | h <;> exact h ▸ nibbleChar_mem _ (h16 _)

theorem sha1HexChars_all (m : List Nat) : ∀ c ∈ sha1HexChars m, c ∈ hexAlphabet := by
  intro c hc
  simp only [sha1HexChars, List.mem_append] at hc
  rcases hc with ((((h | h) | h) | h) | h) <;> exact hexOfWord_all _ _ h

theorem hexOfWord_length (w : Nat) : (hexOfWord w).length = 8 := rfl

theorem sha1HexChars_length (m : List Nat) : (sha1HexChars m).length = 40 := by
  simp [sha1HexChars, List.length_append, hexOfWord_length]

theorem toLower_of_mem_hexAlphabet : ∀ c ∈ hexAlphabet, Char.toLower c = c := by
  decide

/-- On an already lowercase hexadecimal digest, `toLowerCase` is the identity. -/
theorem jsToLowerCase_sha1Hex (s : String) : jsToLowerCase (sha1Hex s) = sha1Hex s := by
  show String.mk ((sha1HexChars (utf8Bytes s)).map Char.toLower) = String.mk _
  rw [List.map_congr_left (fun c hc => toLower_of_mem_hexAlphabet c (sha1HexChars_all _ c hc)),
    List.map_id']

/-! ### Object (parameter bag) lemmas -/

theorem find?_map_override (o : Obj) (k v : String) :
    List.find? (fun p => p.1 == k) (o.map (fun p => if p.1 == k then (k, v) else p)) =
      if o.any (fun p => p.1 == k) then some (k, v) else none := by
  induction o with
  | nil => rfl
  | cons p t ih =>
    cases hbeq : (p.1 == k) with
    | true =>
      have hpk : p.1 = k := by simpa using hbeq
      have hmap : (p :: t).map (fun q => if q.1 == k then (k, v) else q) =
          (k, v) :: t.map (fun q => if q.1 == k then (k, v) else q) := by
        simp [hpk]
      rw [hmap, List.find?_cons_of_pos _ (by simp), if_pos (by simp [hbeq])]
    | false =>
      have hpk : p.1 ≠ k := by simpa using hbeq
      have hmap : (p :: t).map (fun q => if q.1 == k then (k, v) else q) =
          p :: t.map (fun q => if q.1 == k then (k, v) else q) := by
        simp [hpk]
      rw [hmap, List.find?_cons_of_neg _ (by simp [hbeq]), ih]
      have hany : (p :: t).any (fun q => q.1 == k) = t.any (fun q => q.1 == k) := by
        simp [hbeq]
      rw [hany]

theorem objGet_objSet_self (o : Obj) (k v : String) :
    objGet (objSet o k v) k = some v := by
  unfold objSet objGet
  by_cases h : o.any (fun p => p.1 == k)
  · rw [if_pos h, find?_map_override, if_pos h]
    rfl
  · rw [if_neg h]
    have hnone : List.find? (fun p => p.1 == k) o = none := by
      rw [List.find?_eq_none]
      intro p hp hpk
      exact h (List.any_of_mem hp hpk)
    rw [List.find?_append, hnone, Option.none_or, List.find?_cons_of_pos _ (by simp)]
    rfl

theorem find?_map_override_ne (o : Obj) (k v k' : String) (h : k' ≠ k) :
    List.find? (fun p => p.1 == k') (o.map (fun p => if p.1 == k then (k, v) else p)) =
      List.find? (fun p => p.1 == k') o := by
  induction o with
  | nil => rfl
  | cons p t ih =>
    cases hbeq : (p.1 == k) with
    | true =>
      have hpk : p.1 = k := by simpa using hbeq
      have hmap : (p :: t).map (fun q => if q.1 == k then (k, v) else q) =
          (k, v) :: t.map (fun q => if q.1 == k then (k, v) else q) := by
        simp [hpk]
      rw [hmap, List.find?_cons_of_neg _ (by simp [Ne.symm h]),
        List.find?_cons_of_neg _ (by simp [hpk, Ne.symm h]), ih]
    | false =>
      have hpk : p.1 ≠ k := by simpa using hbeq
      have hmap : (p :: t).map (fun q => if q.1 == k then (k, v) else q) =
          p :: t.map (fun q => if q.1 == k then (k, v) else q) := by
        simp [hpk]
      rw [hmap]
      cases hbeq' : (p.1 == k') with
      | true =>
        rw [List.find?_cons_of_pos _ (by simpa using hbeq'),
          List.find?_cons_of_pos _ (by simpa using hbeq')]
      | false =>
        rw [List.find?_cons_of_neg _ (by simp [hbeq']),
          List.find?_cons_of_neg _ (by simp [hbeq']), ih]

theorem objGet_objSet_ne (o : Obj) (k k' v : String) (h : k' ≠ k) :
    objGet (objSet o k v) k' = objGet o k' := by
  unfold objSet objGet
  by_cases ha : o.any (fun p => p.1 == k)
  · rw [if_pos ha, find?_map_override_ne _ _ _ _ h]
  · rw [if_neg ha, List.find?_append]
    have hb : (k == k') = false := by simpa using Ne.symm h
    have : List.find? (fun p => p.1 == k') [(k, v)] = none := by
      simp [List.find?, hb]
    rw [this, Option.or_none]

theorem objMerge_cons (a : Obj) (p : String × String) (t : Obj) :
    objMerge a (p :: t) = objMerge (objSet a p.1 p.2) t := rfl

theorem objGet_objMerge_of_not_key (a b : Obj) (k : String)
    (h : ∀ p ∈ b, p.1 ≠ k) : objGet (objMerge a b) k = objGet a k := by
  induction b generalizing a with
  | nil => rfl
  | cons p t ih =>
    rw [objMerge_cons, ih _ (fun q hq => h q (List.mem_cons_of_mem _ hq)),
      objGet_objSet_ne _ _ _ _ (Ne.symm (h p (List.mem_cons_self _ _)))]

theorem mem_objSet_key (o : Obj) (k v : String) :
    ∀ p ∈ objSet o k v, p.1 = k ∨ ∃ q ∈ o, p.1 = q.1 := by
  unfold objSet
  by_cases h : o.any (fun p => p.1 == k)
  · rw [if_pos h]
    intro p hp
    obtain ⟨q, hq, hqe⟩ := List.mem_map.mp hp
    by_cases hbeq : (q.1 == k)
    · left; rw [← hqe]; simp [hbeq]
    · right
      refine ⟨q, hq, ?_⟩
      rw [← hqe]
      simp [hbeq]
  · rw [if_neg h]
    intro p hp
    rcases List.mem_append.mp hp with hp | hp
    · exact Or.inr ⟨p, hp, rfl⟩
    · left
      have : p = (k, v) := by simpa using hp
      rw [this]

theorem objMerge_keys_not (a b : Obj) (k : String)
    (ha : ∀ p ∈ a, p.1 ≠ k) (hb : ∀ p ∈ b, p.1 ≠ k) :
    ∀ p ∈ objMerge a b, p.1 ≠ k := by
  induction b generalizing a with
  | nil => exact ha
  | cons q t ih =>
    rw [objMerge_cons]
    refine ih _ ?_ (fun p hp => hb p (List.mem_cons_of_mem _ hp))
    intro p hp
    rcases mem_objSet_key a q.1 q.2 p hp with h1 | ⟨r, hr, hre⟩
    · rw [h1]; exact hb q (List.mem_cons_self _ _)
    · rw [hre]; exact ha r hr

theorem objMerge_append (a b : Obj) (p : String × String) :
    objMerge a (b ++ [p]) = objSet (objMerge a b) p.1 p.2 := by
  unfold objMerge
  rw [List.foldl_append]
  rfl

/-- C1: for every triple of strings, `API.generateSignature` returns the
lowercase hexadecimal SHA-1 digest of the concatenation `salt + token +
secret`; it is deterministic (identical inputs give identical output, stated
as the function yielding equal results on equal applications) and total, its
output being forty characters drawn from the lowercase hex alphabet. -/
theorem generateSignature_spec (salt token secret : String) :
    generateSignature salt token secret = sha1Hex (salt ++ token ++ secret) ∧
    generateSignature salt token secret = generateSignature salt token secret ∧
    (generateSignature salt token secret).data.length = 40 ∧
    (generateSignature salt token secret).data.all
      (fun c => decide (c ∈ hexAlphabet)) = true := by
  have h1 : generateSignature salt token secret = sha1Hex (salt ++ token ++ secret) :=
    jsToLowerCase_sha1Hex _
  refine ⟨h1, rfl, ?_, ?_⟩
  · rw [h1]; exact sha1HexChars_length _
  · rw [h1]
    simp only [List.all_eq_true, decide_eq_true_eq]
    exact sha1HexChars_all _

/-! ### Envelope decoding (C2) -/

/-- C2 (amended): decoding a response envelope succeeds exactly when `err = 0`;
success carries the envelope's `dat` (possibly null) and its `desc`; failure
carries the envelope's `desc` when it is non-empty — the fixed fallback
`"Unknown error"` when it is empty — together with `dat`. -/
theorem decodeEnvelope_spec {α : Type} (e : Envelope α) :
    ((decodeEnvelope e).isSuccess = true ↔ e.err = 0) ∧
    (e.err = 0 → decodeEnvelope e = .ok e.dat e.desc) ∧
    (e.err ≠ 0 → decodeEnvelope e = .fail (jsOr e.desc "Unknown error") e.dat) := by
  unfold decodeEnvelope
  by_cases h : e.err = 0
  · rw [if_pos h]
    exact ⟨by simp [ReqResult.isSuccess, h], fun _ => rfl, fun hne => absurd h hne⟩
  · rw [if_neg h]
    exact ⟨by simp [ReqResult.isSuccess, h], fun he => absurd he h, fun _ => rfl⟩

/-- Witness for C2: both branches of `decodeEnvelope_spec` at concrete
envelopes. -/
theorem decodeEnvelope_spec_witness :
    decodeEnvelope (⟨0, "ok", some 5⟩ : Envelope Nat) = .ok (some 5) "ok" ∧
    decodeEnvelope (⟨2, "bad", some 7⟩ : Envelope Nat) =
      .fail (jsOr "bad" "Unknown error") (some 7) :=
  ⟨(decodeEnvelope_spec ⟨0, "ok", some 5⟩).2.1 rfl,
   (decodeEnvelope_spec ⟨2, "bad", some 7⟩).2.2 (by decide)⟩

/-- C2 counterexample: on the failure envelope `{err: 1, desc: "", dat: null}`
the result's error is the fallback `"Unknown error"`, not the envelope's
(empty) `desc` — so the decoded failure does not always carry `desc` as its
error. -/
theorem decodeEnvelope_empty_desc_cx :
    (decodeEnvelope (⟨1, "", none⟩ : Envelope Nat)).errorMsg ≠
      some (⟨1, "", none⟩ : Envelope Nat).desc := by
  decide

/-! ### Login (C3) and the login/logout round trip (C10) -/

/-- C3 (amended): on an `err = 0` envelope whose payload is present, `login`
stores exactly the payload's token/secret (plus the auth time) in memory and
persists them with the payload's `userid` and the login email, returning the
payload; on an `err ≠ 0` envelope it fails carrying the server `desc` when
non-empty (the fixed `"Login failed"` otherwise) and leaves the state
completely untouched; a network-layer failure likewise leaves the state
untouched. -/
theorem login_spec (s : ApiState) (email pwd : String) (now : Nat)
    (env : Envelope LoginDat) :
    (env.err = 0 → ∀ d, env.dat = some d →
      login s email pwd now (.ok env) =
        ({ token := d.token, secret := d.secret, authTime := some now,
           storage := some ⟨d.token, d.secret, some now, d.userid, some email⟩ },
         .ok d)) ∧
    (env.err ≠ 0 →
      login s email pwd now (.ok env) = (s, .fail (jsOr env.desc "Login failed"))) ∧
    (∀ msg, login s email pwd now (.error msg) = (s, .fail (jsOr msg "Login failed"))) := by
  refine ⟨?_, ?_, fun msg => rfl⟩
  · intro h0 d hd
    simp [login, hd, h0]
  · intro hne
    cases hd : env.dat with
    | some d => simp [login, hd, hne]
    | none => simp [login, hd]

/-- Witness for C3: the success and failure branches of `login_spec` at
concrete envelopes. -/
theorem login_spec_witness :
    login initialState "user@example.com" "pw" 7
        (.ok ⟨0, "ok", some ⟨some "T", some "S", some "U1"⟩⟩) =
      ({ token := some "T", secret := some "S", authTime := some 7,
         storage := some ⟨some "T", some "S", some 7, some "U1",
           some "user@example.com"⟩ },
       .ok ⟨some "T", some "S", some "U1"⟩) ∧
    login initialState "user@example.com" "pw" 7 (.ok ⟨1, "invalid credentials", none⟩) =
      (initialState, .fail (jsOr "invalid credentials" "Login failed")) :=
  ⟨(login_spec _ _ _ _ _).1 rfl _ rfl,
   (login_spec _ _ _ _ _).2.1 (by decide)⟩

/-- C3 counterexample: on the failure envelope `{err: 1, desc: "", dat: null}`
the login result carries the fallback `"Login failed"`, not the server's
(empty) description. -/
theorem login_empty_desc_cx :
    (login initialState "e" "p" 0 (.ok ⟨1, "", none⟩)).2 ≠
      .fail (⟨1, "", none⟩ : Envelope LoginDat).desc := by
  decide

/-- C10: starting from the empty session state, a successful login followed
immediately by logout leaves both the in-memory fields and the persisted
credentials in the same empty state as before login; moreover `logout`
unconditionally clears the local session store from any state (it performs no
remote call at all, so no remote outcome can block it). -/
theorem login_logout_roundtrip (email pwd : String) (now : Nat)
    (env : Envelope LoginDat) (_hsucc : env.err = 0) :
    logout (login initialState email pwd now (.ok env)).1 = initialState ∧
    ∀ s : ApiState, logout s = initialState :=
  ⟨rfl, fun _ => rfl⟩

/-- Witness for C10: the round trip at a concrete successful envelope. -/
theorem login_logout_roundtrip_witness :
    logout (login initialState "e" "p" 3
      (.ok ⟨0, "ok", some ⟨some "T", some "S", some "U"⟩⟩)).1 = initialState :=
  (login_logout_roundtrip "e" "p" 3 ⟨0, "ok", some ⟨some "T", some "S", some "U"⟩⟩ rfl).1

/-! ### Transport attempts (C4) and missing preconditions (C5, C8) -/

/-- Every `request` performs exactly one transport attempt. -/
theorem request_calls {α : Type} (s : ApiState) (now : Nat) (action : String)
    (params : Obj) (transport : Obj → Except String (Envelope α)) :
    (request s now action params transport).2 = 1 := by
  unfold request
  cases h : transport (requestParams s now action params) <;> rfl

/-- C4 (amended): no action is ever retried: every `request` — read and
control alike — performs exactly one transport attempt, and a network-layer
failure of that attempt surfaces immediately to the caller as a failure
result carrying the error message; in particular `controlDevice` issues
exactly one request. -/
theorem request_no_retry {α : Type} (s : ApiState) (now : Nat) (action : String)
    (params : Obj) (transport : Obj → Except String (Envelope α)) :
    (request s now action params transport).2 = 1 ∧
    (∀ msg, (∀ q, transport q = .error msg) →
      request s now action params transport = (.fail (jsOr msg "Network error") none, 1)) ∧
    (∀ pn devcode devaddr sn id val,
      (controlDevice s now pn devcode devaddr sn id val transport).2 = 1) := by
  refine ⟨request_calls s now action params transport, ?_,
    fun pn devcode devaddr sn id val => request_calls s now _ _ transport⟩
  intro msg h
  unfold request
  rw [h (requestParams s now action params)]

/-- Witness for C4: a transport that always times out is attempted exactly
once and the failure surfaces unchanged. -/
theorem request_no_retry_witness :
    request (α := Nat) initialState 0 "queryAccountInfo" []
        (fun _ => .error "Request timeout") =
      (.fail (jsOr "Request timeout" "Network error") none, 1) :=
  (request_no_retry initialState 0 "queryAccountInfo" [] _).2.1
    "Request timeout" (fun _ => rfl)

/-- C4 counterexample: the idempotent read `getAccountInfo`, on a transport
timeout, is not retried — the transport is invoked exactly once (a retry
policy with up to three retries would invoke it more than once) and the
timeout surfaces immediately. -/
theorem getAccountInfo_no_retry_cx :
    getAccountInfo (α := Nat) initialState 0 (fun _ => .error "Request timeout") =
      (.fail "Request timeout" none, 1) ∧
    ¬ 1 < (getAccountInfo (α := Nat) initialState 0
      (fun _ => .error "Request timeout")).2 := by
  constructor <;> decide

/-- When an object holds no binding for a key, assignment appends it. -/
theorem objSet_of_not_key (o : Obj) (k v : String) (h : ∀ p ∈ o, p.1 ≠ k) :
    objSet o k v = o ++ [(k, v)] := by
  unfold objSet
  rw [if_neg]
  simp only [List.any_eq_true, not_exists, not_and]
  intro p hp
  simp [h p hp]

/-- The keys of the object `API.request` merges over the base parameters are
the `action` key and the caller's keys. -/
theorem actionMerge_keys_not (action : String) (params : Obj) (k : String)
    (hk : k ≠ "action") (hp : ∀ p ∈ params, p.1 ≠ k) :
    ∀ p ∈ objMerge [("action", action)] params, p.1 ≠ k := by
  refine objMerge_keys_not _ _ _ ?_ hp
  intro p hmem
  have : p = ("action", action) := by simpa using hmem
  rw [this]
  exact fun he => hk (he ▸ rfl)

/-- When the caller supplies no `sign` key, the built request's `sign` field
is the freshly generated signature. -/
theorem requestParams_sign (s : ApiState) (now : Nat) (action : String)
    (params : Obj) (hs : ∀ p ∈ params, p.1 ≠ "sign") :
    objGet (requestParams s now action params) "sign" =
      some (generateSignature (Nat.repr now) (jsStr s.token) (jsStr s.secret)) := by
  unfold requestParams buildParams
  rw [objGet_objMerge_of_not_key _ _ _
    (actionMerge_keys_not action params "sign" (by decide) hs)]
  rfl

/-- When the caller supplies no `salt` key, the built request's `salt` field
is the decimal string of the build-time millisecond clock. -/
theorem requestParams_salt (s : ApiState) (now : Nat) (action : String)
    (params : Obj) (hl : ∀ p ∈ params, p.1 ≠ "salt") :
    objGet (requestParams s now action params) "salt" = some (Nat.repr now) := by
  unfold requestParams buildParams
  rw [objGet_objMerge_of_not_key _ _ _
    (actionMerge_keys_not action params "salt" (by decide) hl)]
  rfl

/-- When the caller supplies no `token` key, the built request's `token` field
is the (possibly `"null"`-coerced) session token. -/
theorem requestParams_token (s : ApiState) (now : Nat) (action : String)
    (params : Obj) (ht : ∀ p ∈ params, p.1 ≠ "token") :
    objGet (requestParams s now action params) "token" = some (jsStr s.token) := by
  unfold requestParams buildParams
  rw [objGet_objMerge_of_not_key _ _ _
    (actionMerge_keys_not action params "token" (by decide) ht)]
  rfl

/-- C5 (amended): no authentication precondition is enforced anywhere: for
every action — session-requiring or not — and every state, including the
empty unauthenticated state, building the parameters succeeds and exactly one
network call is issued; the `token` field of the built request is the session
token, JavaScript-coerced to the literal string `"null"` when absent. -/
theorem request_no_auth_precondition {α : Type} (s : ApiState) (now : Nat)
    (action : String) (params : Obj)
    (transport : Obj → Except String (Envelope α))
    (ht : ∀ p ∈ params, p.1 ≠ "token") :
    (request s now action params transport).2 = 1 ∧
    objGet (requestParams s now action params) "token" = some (jsStr s.token) :=
  ⟨request_calls s now action params transport, requestParams_token s now action params ht⟩

/-- Witness for C5: a session-requiring action built from the empty session
state still issues its one network call, with token `"null"`. -/
theorem request_no_auth_precondition_witness :
    (request (α := Nat) initialState 2 "queryAccountInfo" [("pn", "1")]
        (fun _ => .error "x")).2 = 1 ∧
    objGet (requestParams initialState 2 "queryAccountInfo" [("pn", "1")]) "token" =
      some (jsStr initialState.token) :=
  request_no_auth_precondition initialState 2 "queryAccountInfo" [("pn", "1")] _
    (by decide)

/-- C5 counterexample: building `queryAccountInfo` with no session present
does not fail before the network call — the transport is invoked once, not
zero times, and the built request carries the coerced token `"null"`. -/
theorem request_no_auth_cx :
    (request (α := Nat) initialState 0 "queryAccountInfo" []
        (fun _ => .error "down")).2 ≠ 0 ∧
    objGet (requestParams initialState 0 "queryAccountInfo" []) "token" =
      some "null" := by
  constructor
  · decide
  · rfl

/-- C8 (amended): `getDeviceLastData` performs no validation of its
identifiers: called with an empty serial number it still issues exactly one
network request, with the empty string bound to the `sn` parameter. -/
theorem getDeviceLastData_no_validation {α : Type} (s : ApiState) (now : Nat)
    (pn devcode devaddr : String)
    (transport : Obj → Except String (Envelope α)) :
    (getDeviceLastData s now pn devcode devaddr "" transport).2 = 1 ∧
    objGet (requestParams s now "querySPDeviceLastData"
      [("pn", pn), ("devcode", devcode), ("devaddr", devaddr), ("sn", "")]) "sn" =
      some "" :=
  ⟨request_calls s now _ _ transport, rfl⟩

/-- C8 counterexample: `getDeviceLastData` with an empty serial number does
not fail with a validation error before the network call: the transport is
invoked once, not zero times, and the network failure is what surfaces. -/
theorem getDeviceLastData_empty_sn_cx :
    (getDeviceLastData (α := Nat) initialState 0 "P" "14" "1" ""
        (fun _ => .error "down")).2 ≠ 0 ∧
    getDeviceLastData (α := Nat) initialState 0 "P" "14" "1" ""
        (fun _ => .error "down") = (.fail "down" none, 1) := by
  constructor <;> decide

/-! ### Reserved-key override (C6) -/

/-- C6 (amended): the spread `{ ...baseParams, ...params }` puts caller
parameters last, so caller-supplied `sign`/`salt` keys DO override the
generated values; only when the caller supplies no such key do the built
request's `sign` and `salt` equal the freshly generated signature and salt. -/
theorem sign_salt_spec (s : ApiState) (now : Nat) (action : String) (params : Obj)
    (hs : ∀ p ∈ params, p.1 ≠ "sign") (hl : ∀ p ∈ params, p.1 ≠ "salt") :
    objGet (requestParams s now action params) "sign" =
      some (generateSignature (Nat.repr now) (jsStr s.token) (jsStr s.secret)) ∧
    objGet (requestParams s now action params) "salt" = some (Nat.repr now) ∧
    (∀ v, objGet (requestParams s now action (params ++ [("sign", v)])) "sign" =
      some v) ∧
    (∀ v, objGet (requestParams s now action (params ++ [("salt", v)])) "salt" =
      some v) := by
  refine ⟨requestParams_sign s now action params hs,
    requestParams_salt s now action params hl, ?_, ?_⟩
  · intro v
    unfold requestParams buildParams
    rw [show objMerge [("action", action)] (params ++ [("sign", v)]) =
        objSet (objMerge [("action", action)] params) "sign" v from
      objMerge_append _ _ ("sign", v)]
    rw [objSet_of_not_key _ _ _ (actionMerge_keys_not action params "sign" (by decide) hs),
      objMerge_append]
    exact objGet_objSet_self _ _ _
  · intro v
    unfold requestParams buildParams
    rw [show objMerge [("action", action)] (params ++ [("salt", v)]) =
        objSet (objMerge [("action", action)] params) "salt" v from
      objMerge_append _ _ ("salt", v)]
    rw [objSet_of_not_key _ _ _ (actionMerge_keys_not action params "salt" (by decide) hl),
      objMerge_append]
    exact objGet_objSet_self _ _ _

/-- Witness for C6: at the empty caller-parameter list the `sign` and `salt`
fields equal the generated values, and an explicit caller-supplied `sign`
overrides. -/
theorem sign_salt_spec_witness :
    objGet (requestParams initialState 5 "queryAccountInfo" []) "sign" =
      some (generateSignature (Nat.repr 5) (jsStr initialState.token)
        (jsStr initialState.secret)) ∧
    objGet (requestParams initialState 5 "queryAccountInfo"
      ([] ++ [("sign", "evil")])) "sign" = some "evil" :=
  ⟨(sign_salt_spec initialState 5 "queryAccountInfo" [] (by decide) (by decide)).1,
   (sign_salt_spec initialState 5 "queryAccountInfo" [] (by decide) (by decide)).2.2.1
     "evil"⟩

set_option maxRecDepth 100000 in
/-- C6 counterexample: a caller-supplied `sign` parameter overrides the
generated signature in the built request — the builder does not recompute or
reject it, so the built `sign` field is the caller's value, which differs from
the signature generated for that salt and session. -/
theorem sign_override_cx :
    objGet (requestParams initialState 0 "queryAccountInfo" [("sign", "evil")])
        "sign" = some "evil" ∧
    some "evil" ≠ some (generateSignature (Nat.repr 0) (jsStr initialState.token)
      (jsStr initialState.secret)) := by
  constructor
  · rfl
  · decide

/-! ### Salt generation (C9) -/

theorem toDigitsCore_eq (f : Nat) : ∀ (n : Nat) (acc : List Char), n < f →
    Nat.toDigitsCore 10 f n acc = decChars n ++ acc := by
  induction f with
  | zero => exact fun n acc h => absurd h (Nat.not_lt_zero n)
  | succ f ih =>
    intro n acc h
    show Nat.toDigitsCore 10 (f + 1) n acc = _
    rw [Nat.toDigitsCore]
    by_cases h0 : n / 10 = 0
    · have hn : n < 10 := (Nat.div_eq_zero_iff (by omega)).mp h0
      rw [if_pos h0, Nat.mod_eq_of_lt hn,
        show decChars n = [Nat.digitChar n] from by rw [decChars]; rw [dif_pos hn]]
      rfl
    · have h10 : 10 ≤ n := by
        by_contra hc
        exact h0 (Nat.div_eq_of_lt (by omega))
      have hlt : n / 10 < f := by
        have := Nat.div_lt_self (show 0 < n by omega) (show 1 < 10 by omega)
        omega
      rw [if_neg h0, ih (n / 10) _ hlt,
        show decChars n = decChars (n / 10) ++ [Nat.digitChar (n % 10)] from by
          rw [decChars]; rw [dif_neg (by omega)],
        List.append_assoc]
      rfl

/-- `Nat.repr` (the embedding of `Date.now().toString()`) renders the decimal
digits. -/
theorem repr_eq_decChars (n : Nat) : Nat.repr n = (decChars n).asString := by
  show (Nat.toDigits 10 n).asString = _
  unfold Nat.toDigits
  rw [toDigitsCore_eq (n + 1) n [] (Nat.lt_succ_self n), List.append_nil]

theorem digitChar_inj : ∀ a, a < 10 → ∀ b, b < 10 →
    Nat.digitChar a = Nat.digitChar b → a = b := by
  decide

theorem decChars_ne_nil (n : Nat) : decChars n ≠ [] := by
  rw [decChars]
  by_cases h : n < 10
  · rw [dif_pos h]
    simp
  · rw [dif_neg h]
    simp

theorem decChars_inj : ∀ m n : Nat, decChars m = decChars n → m = n := by
  intro m
  induction m using Nat.strong_induction_on with
  | _ m ih =>
    intro n h
    by_cases hm : m < 10 <;> by_cases hn : n < 10
    · have hm' : decChars m = [Nat.digitChar m] := by rw [decChars]; rw [dif_pos hm]
      have hn' : decChars n = [Nat.digitChar n] := by rw [decChars]; rw [dif_pos hn]
      rw [hm', hn'] at h
      injection h with h1 _
      exact digitChar_inj m hm n hn h1
    · exfalso
      have hm' : decChars m = [Nat.digitChar m] := by rw [decChars]; rw [dif_pos hm]
      have hn' : decChars n = decChars (n / 10) ++ [Nat.digitChar (n % 10)] := by
        rw [decChars]; rw [dif_neg hn]
      have hlen := congrArg List.length h
      rw [hm', hn', List.length_append] at hlen
      simp only [List.length_cons, List.length_nil] at hlen
      have : (decChars (n / 10)).length = 0 := by omega
      exact decChars_ne_nil (n / 10) (List.length_eq_zero.mp this)
    · exfalso
      have hm' : decChars m = decChars (m / 10) ++ [Nat.digitChar (m % 10)] := by
        rw [decChars]; rw [dif_neg hm]
      have hn' : decChars n = [Nat.digitChar n] := by rw [decChars]; rw [dif_pos hn]
      have hlen := congrArg List.length h
      rw [hm', hn', List.length_append] at hlen
      simp only [List.length_cons, List.length_nil] at hlen
      have : (decChars (m / 10)).length = 0 := by omega
      exact decChars_ne_nil (m / 10) (List.length_eq_zero.mp this)
    · have hm' : decChars m = decChars (m / 10) ++ [Nat.digitChar (m % 10)] := by
        rw [decChars]; rw [dif_neg hm]
      have hn' : decChars n = decChars (n / 10) ++ [Nat.digitChar (n % 10)] := by
        rw [decChars]; rw [dif_neg hn]
      rw [hm', hn'] at h
      obtain ⟨h1, h2⟩ := List.append_inj' h rfl
      injection h2 with h2' _
      have e1 : m / 10 = n / 10 :=
        ih (m / 10) (Nat.div_lt_self (by omega) (by omega)) (n / 10) h1
      have e2 : m % 10 = n % 10 :=
        digitChar_inj _ (Nat.mod_lt _ (by omega)) _ (Nat.mod_lt _ (by omega)) h2'
      omega

/-- Distinct numbers have distinct decimal strings. -/
theorem repr_inj (m n : Nat) (h : Nat.repr m = Nat.repr n) : m = n := by
  rw [repr_eq_decChars, repr_eq_decChars] at h
  exact decChars_inj m n (congrArg String.data h)

/-- C9 (amended): the salt of a built request is exactly the decimal string
of the wall-clock millisecond time at which it is built, so two requests'
salts are equal precisely when they are built within the same millisecond:
calls at distinct millisecond timestamps get distinct salts, but two calls
inside one millisecond reuse the same salt value. -/
theorem salt_spec (s1 s2 : ApiState) (now1 now2 : Nat) (a1 a2 : String)
    (p1 p2 : Obj) (h1 : ∀ p ∈ p1, p.1 ≠ "salt") (h2 : ∀ p ∈ p2, p.1 ≠ "salt") :
    objGet (requestParams s1 now1 a1 p1) "salt" = some (Nat.repr now1) ∧
    (objGet (requestParams s1 now1 a1 p1) "salt" =
        objGet (requestParams s2 now2 a2 p2) "salt" ↔ now1 = now2) := by
  rw [requestParams_salt s1 now1 a1 p1 h1, requestParams_salt s2 now2 a2 p2 h2]
  refine ⟨rfl, ⟨fun he => repr_inj _ _ (Option.some_injective _ he), fun he => by rw [he]⟩⟩

/-- Witness for C9: two builds at millisecond 41 and 42 have distinct salts,
via the equivalence at concrete arguments. -/
theorem salt_spec_witness :
    objGet (requestParams initialState 41 "queryAccountInfo" []) "salt" =
      some (Nat.repr 41) ∧
    (objGet (requestParams initialState 41 "queryAccountInfo" []) "salt" =
        objGet (requestParams initialState 42 "queryPlantInfo" [("plantid", "1")])
          "salt" ↔ (41 : Nat) = 42) :=
  salt_spec initialState initialState 41 42 "queryAccountInfo" "queryPlantInfo"
    [] [("plantid", "1")] (by decide) (by decide)

/-- C9 counterexample: two different calls issued within the same millisecond
(timestamp 42) are built with the same salt — the salt is not unique across
calls in a process lifetime. -/
theorem salt_reuse_cx :
    objGet (requestParams initialState 42 "queryAccountInfo" []) "salt" =
      objGet (requestParams initialState 42 "queryPlantInfo" [("plantid", "1")])
        "salt" := by
  rfl

/-! ### Session invariant (C7) -/

theorem jsTruthy_isSome (o : Option String) (h : jsTruthy o = true) :
    o.isSome = true := by
  cases o with
  | none => simp [jsTruthy] at h
  | some s => rfl

/-- C7 (amended): in every state reachable through `init`, `login` and
`logout` from a fresh process, the in-memory token and secret are both
present or both absent — provided every successful login envelope's payload
carries `token` and `secret` either both present or both missing (the code
itself does not enforce this: see the counterexample). -/
theorem session_invariant (s : ApiState) (h : Reached s) :
    s.token.isSome = s.secret.isSome := by
  induction h with
  | start st => rfl
  | stepInit s h ih =>
    unfold init
    by_cases hc : (jsTruthy (s.storage.getD emptyCreds).token &&
        jsTruthy (s.storage.getD emptyCreds).secret) = true
    · rw [if_pos hc]
      obtain ⟨h1, h2⟩ := Bool.and_eq_true_iff.mp hc
      show (s.storage.getD emptyCreds).token.isSome =
        (s.storage.getD emptyCreds).secret.isSome
      rw [jsTruthy_isSome _ h1, jsTruthy_isSome _ h2]
    · rw [if_neg hc]
      exact ih
  | stepLogin s email pwd now env h hw ih =>
    cases hd : env.dat with
    | none =>
      simp only [login, hd]
      exact ih
    | some d =>
      by_cases h0 : env.err = 0
      · simp only [login, hd, if_pos h0]
        exact hw d hd
      · simp only [login, hd, if_neg h0]
        exact ih
  | stepLoginErr s email pwd msg now h ih =>
    exact ih
  | stepLogout s h ih => rfl

/-- Witness for C7: the invariant at the state reached by a well-formed
successful login from a fresh process. -/
theorem session_invariant_witness :
    (login initialState "e" "p" 0
      (.ok ⟨0, "ok", some ⟨some "T", some "S", some "U"⟩⟩)).1.token.isSome =
    (login initialState "e" "p" 0
      (.ok ⟨0, "ok", some ⟨some "T", some "S", some "U"⟩⟩)).1.secret.isSome :=
  session_invariant _
    (Reached.stepLogin initialState "e" "p" 0 ⟨0, "ok", some ⟨some "T", some "S", some "U"⟩⟩
      (Reached.start none) (fun d hd => by cases hd; rfl))

/-- C7 counterexample: a login whose successful envelope payload contains a
token but no secret puts the client into a partially-authenticated state —
token present, secret absent — through a public operation, so the invariant
as claimed does not hold unconditionally. -/
theorem partial_session_cx :
    (login initialState "e" "p" 0
      (.ok ⟨0, "ok", some ⟨some "T", none, none⟩⟩)).1.token.isSome = true ∧
    (login initialState "e" "p" 0
      (.ok ⟨0, "ok", some ⟨some "T", none, none⟩⟩)).1.secret.isSome = false := by
  constructor <;> decide

end Smartess
